import Mathlib

/-
Shallow embedding of the nutrition data store and aggregation layer of the
Calorie-Tracker-App repository.

Sources embedded:
  * src/database/database.ts  (schema creation, catalog / log / recipe store)
  * src/screens/CreateRecipeScreen.tsx  (saveRecipe transaction)
  * src/screens/EditRecipeScreen.tsx    (updateRecipe transaction)
  * src/screens/RecipeDetailScreen.tsx  (logRecipeAsMeal, per-serving math)
  * src/screens/HomeScreen.tsx          (daily summary aggregation)
  * src/screens/AddFoodScreen.tsx       (callers of the catalog store)

Numbers: SQLite INTEGER columns are modelled as Int, REAL columns and
JavaScript arithmetic on them as Rat (exact field arithmetic stands in for
IEEE doubles; every claim below is about the arithmetic relation computed,
not about rounding of doubles).

Failure model: every database.ts function wraps its statements in
try/catch.  We model the storage layer outcome as an explicit Bool
parameter `ok` (true = the underlying SQLite call succeeds); the embedded
function returns exactly what the catch-block of the source returns when
`ok = false`.  The legacy callback transactions of the recipe screens are
modelled with a per-statement failure schedule `sched : Nat → Bool`
(true = that numbered SQL statement inside the transaction errors).  All
statement error callbacks in those screens `return false`, which under the
WebSQL semantics used by expo-sqlite means "ignore the error and continue
the transaction"; the embedding therefore skips the failed statement and
keeps going, and the transaction commits whatever succeeded.
-/

/-- Row of the food_items table (schema of initDatabase in database.ts). -/
structure FoodItem where
  id : Int
  name : String
  calories : Int
  protein : Rat
  carbs : Rat
  fat : Rat
  fiber : Rat
  serving_size : String
  region : String
  category : String
deriving Repr, DecidableEq, Inhabited

/-- Row of the recipes table. -/
structure RecipeRow where
  id : Int
  name : String
  description : String
  instructions : String
  total_calories : Rat
  servings : Int
deriving Repr, DecidableEq, Inhabited

/-- Row of the recipe_ingredients table. -/
structure RecipeIngredientRow where
  id : Int
  recipe_id : Int
  food_id : Int
  quantity : Rat
deriving Repr, DecidableEq, Inhabited

/-- Row of the food_logs table as created by initDatabase: columns id,
user_id, food_id, quantity, meal_type, date, timestamp, nothing else. -/
structure FoodLogRow where
  id : Int
  user_id : Int
  food_id : Int
  quantity : Rat
  meal_type : String
  date : String
  timestamp : String
deriving Repr, DecidableEq, Inhabited

/-- Row of the water_logs table. -/
structure WaterLogRow where
  id : Int
  user_id : Int
  amount_ml : Int
  timestamp : String
  date : String
deriving Repr, DecidableEq, Inhabited

/-- State of the SQLite database: the five tables the claims touch, the
AUTOINCREMENT counters, and whether the CREATE TABLE statements have run. -/
structure DBState where
  tablesExist : Bool := false
  food_items : List FoodItem := []
  recipes : List RecipeRow := []
  recipe_ingredients : List RecipeIngredientRow := []
  food_logs : List FoodLogRow := []
  water_logs : List WaterLogRow := []
  nextFoodId : Int := 1
  nextRecipeId : Int := 1
  nextIngredientId : Int := 1
  nextFoodLogId : Int := 1
  nextWaterLogId : Int := 1
deriving Repr, DecidableEq, Inhabited

namespace Database

/-- The ten seed rows inserted by populateInitialFoodData in database.ts. -/
def initialFoodData : List FoodItem :=
  [ ⟨1, "Rice (Cooked)", 130, 27/10, 28, 3/10, 4/10, "100g", "All India", "Staples"⟩,
    ⟨2, "Chapati", 120, 3, 20, 7/2, 6/5, "1 piece", "North India", "Staples"⟩,
    ⟨3, "Dal (Toor)", 116, 7, 20, 2/5, 2, "100g", "All India", "Lentils"⟩,
    ⟨4, "Paneer", 265, 18, 18/5, 21, 0, "100g", "North India", "Dairy"⟩,
    ⟨5, "Chicken Curry", 243, 15, 6, 18, 3/2, "100g", "All India", "Non-Veg"⟩,
    ⟨6, "Palak Paneer", 180, 8, 10, 13, 3, "100g", "North India", "Vegetarian"⟩,
    ⟨7, "Samosa", 262, 7/2, 24, 17, 3/2, "1 piece", "North India", "Snacks"⟩,
    ⟨8, "Dosa", 168, 17/5, 29, 9/2, 6/5, "1 piece", "South India", "Breakfast"⟩,
    ⟨9, "Idli", 78, 21/10, 33/2, 1/10, 9/10, "1 piece", "South India", "Breakfast"⟩,
    ⟨10, "Butter Chicken", 290, 18, 8, 22, 1, "100g", "North India", "Non-Veg"⟩ ]

/-- Embedding of initDatabase (database.ts lines 15-100).  On storage
success: CREATE TABLE IF NOT EXISTS for every table, then seed food_items
via populateInitialFoodData only when `SELECT COUNT(*)` is zero.  On any
storage error the catch-block only calls console.error and the promise
resolves normally, so the caller always observes `Except.ok ()`: the
failure is logged, not rethrown. -/
def initDatabase (ok : Bool) (s : DBState) : Except String Unit × DBState :=
  if ok then
    let s1 := if s.tablesExist then s else { s with tablesExist := true }
    let s2 := if s1.food_items.isEmpty
      then { s1 with food_items := initialFoodData, nextFoodId := 11 }
      else s1
    (Except.ok (), s2)
  else
    (Except.ok (), s)

/-- Embedding of addFoodLog (database.ts lines 146-158): INSERT a food_logs
row and return lastInsertRowId; the catch-block returns -1. -/
def addFoodLog (ok : Bool) (s : DBState) (userId foodId : Int) (quantity : Rat)
    (mealType date timestamp : String) : Int × DBState :=
  if ok then
    (s.nextFoodLogId,
     { s with
        food_logs := s.food_logs ++
          [⟨s.nextFoodLogId, userId, foodId, quantity, mealType, date, timestamp⟩],
        nextFoodLogId := s.nextFoodLogId + 1 })
  else
    (-1, s)

/-- Result shape of the getFoodLogsByDate join (database.ts lines 161-176):
log fields plus the joined food_items fields. -/
structure JoinedLog where
  id : Int
  quantity : Rat
  meal_type : String
  timestamp : String
  food_id : Int
  name : String
  calories : Int
  protein : Rat
  carbs : Rat
  fat : Rat
  fiber : Rat
  serving_size : String
deriving Repr, DecidableEq, Inhabited

/-- Embedding of getFoodLogsByDate (database.ts lines 161-176): inner JOIN
of food_logs with food_items on fl.food_id = fi.id, restricted to the user
and date, ORDER BY fl.timestamp DESC; the catch-block returns []. -/
def getFoodLogsByDate (ok : Bool) (s : DBState) (userId : Int) (date : String) :
    List JoinedLog :=
  if ok then
    ((s.food_logs.filter (fun fl => fl.user_id == userId && fl.date == date)).flatMap
      (fun fl => (s.food_items.filter (fun fi => fi.id == fl.food_id)).map
        (fun fi => ⟨fl.id, fl.quantity, fl.meal_type, fl.timestamp, fi.id, fi.name,
                    fi.calories, fi.protein, fi.carbs, fi.fat, fi.fiber,
                    fi.serving_size⟩))).insertionSort
      (fun a b => b.timestamp ≤ a.timestamp)
  else
    []

/-- Embedding of getAllFoodItems (database.ts lines 136-143): SELECT *
ORDER BY name; the catch-block returns []. -/
def getAllFoodItems (ok : Bool) (s : DBState) : List FoodItem :=
  if ok then s.food_items.insertionSort (fun a b => a.name ≤ b.name) else []

/-- Embedding of deleteFoodLog (database.ts lines 179-187): DELETE by id,
return true; the catch-block returns false. -/
def deleteFoodLog (ok : Bool) (s : DBState) (logId : Int) : Bool × DBState :=
  if ok then
    (true, { s with food_logs := s.food_logs.filter (fun fl => fl.id != logId) })
  else
    (false, s)

/-- Embedding of addWaterLog (database.ts lines 248-260): INSERT a
water_logs row and return lastInsertRowId; the catch-block returns -1. -/
def addWaterLog (ok : Bool) (s : DBState) (userId : Int) (amountMl : Int)
    (date timestamp : String) : Int × DBState :=
  if ok then
    (s.nextWaterLogId,
     { s with
        water_logs := s.water_logs ++
          [⟨s.nextWaterLogId, userId, amountMl, timestamp, date⟩],
        nextWaterLogId := s.nextWaterLogId + 1 })
  else
    (-1, s)

/-- Embedding of getWaterLogsByDate (database.ts lines 263-273): SELECT by
user and date ORDER BY timestamp DESC; the catch-block returns []. -/
def getWaterLogsByDate (ok : Bool) (s : DBState) (userId : Int) (date : String) :
    List WaterLogRow :=
  if ok then
    (s.water_logs.filter (fun w => w.user_id == userId && w.date == date)).insertionSort
      (fun a b => b.timestamp ≤ a.timestamp)
  else
    []

/-- Embedding of deleteWaterLog (database.ts lines 276-284). -/
def deleteWaterLog (ok : Bool) (s : DBState) (logId : Int) : Bool × DBState :=
  if ok then
    (true, { s with water_logs := s.water_logs.filter (fun w => w.id != logId) })
  else
    (false, s)

/-- Embedding of getWeeklyWaterData (database.ts lines 287-307).  For each
input date the SQL `SELECT SUM(amount_ml)` is issued; SUM over no rows is
NULL and the guard `if (result && result.total)` also leaves the
preallocated 0 in place when the sum is 0, so each slot holds the sum of
amount_ml of that user's logs with that exact date.  The catch-block
returns an all-zero array of the input length. -/
def getWeeklyWaterData (ok : Bool) (s : DBState) (userId : Int)
    (dates : List String) : List Int :=
  if ok then
    dates.map (fun d =>
      let total := ((s.water_logs.filter
        (fun w => w.user_id == userId && w.date == d)).map (fun w => w.amount_ml)).sum
      if total = 0 then 0 else total)
  else
    List.replicate dates.length 0

/-- Embedding of addRecipe (database.ts lines 310-321): INSERT a recipes
row and return lastInsertRowId; the catch-block returns -1. -/
def addRecipe (ok : Bool) (s : DBState) (name description instructions : String)
    (totalCalories : Rat) (servings : Int) : Int × DBState :=
  if ok then
    (s.nextRecipeId,
     { s with
        recipes := s.recipes ++
          [⟨s.nextRecipeId, name, description, instructions, totalCalories, servings⟩],
        nextRecipeId := s.nextRecipeId + 1 })
  else
    (-1, s)

/-- Embedding of addRecipeIngredient (database.ts lines 324-335). -/
def addRecipeIngredient (ok : Bool) (s : DBState) (recipeId foodId : Int)
    (quantity : Rat) : Int × DBState :=
  if ok then
    (s.nextIngredientId,
     { s with
        recipe_ingredients := s.recipe_ingredients ++
          [⟨s.nextIngredientId, recipeId, foodId, quantity⟩],
        nextIngredientId := s.nextIngredientId + 1 })
  else
    (-1, s)

/-- Embedding of getAllRecipes (database.ts lines 338-345). -/
def getAllRecipes (ok : Bool) (s : DBState) : List RecipeRow :=
  if ok then s.recipes.insertionSort (fun a b => a.name ≤ b.name) else []

/-- Embedding of getRecipeById (database.ts lines 348-355): SELECT * FROM
recipes WHERE id = ?; reads only the recipes table, so the stored
total_calories column is returned as saved, never recomputed from
food_items.  The catch-block returns null. -/
def getRecipeById (ok : Bool) (s : DBState) (recipeId : Int) : Option RecipeRow :=
  if ok then s.recipes.find? (fun r => r.id == recipeId) else none

/-- Result shape of the getRecipeIngredients join. -/
structure JoinedIngredient where
  id : Int
  quantity : Rat
  food_id : Int
  name : String
  calories : Int
  protein : Rat
  carbs : Rat
  fat : Rat
  fiber : Rat
  serving_size : String
deriving Repr, DecidableEq, Inhabited

/-- Embedding of getRecipeIngredients (database.ts lines 358-372): inner
JOIN of recipe_ingredients with food_items; the catch-block returns []. -/
def getRecipeIngredients (ok : Bool) (s : DBState) (recipeId : Int) :
    List JoinedIngredient :=
  if ok then
    (s.recipe_ingredients.filter (fun ri => ri.recipe_id == recipeId)).flatMap
      (fun ri => (s.food_items.filter (fun fi => fi.id == ri.food_id)).map
        (fun fi => ⟨ri.id, ri.quantity, fi.id, fi.name, fi.calories, fi.protein,
                    fi.carbs, fi.fat, fi.fiber, fi.serving_size⟩))
  else
    []

/-- Embedding of deleteRecipe (database.ts lines 375-386): DELETE the
ingredient rows, then the recipe row, return true; the catch-block
returns false. -/
def deleteRecipe (ok : Bool) (s : DBState) (recipeId : Int) : Bool × DBState :=
  if ok then
    (true,
     { s with
        recipe_ingredients :=
          s.recipe_ingredients.filter (fun ri => ri.recipe_id != recipeId),
        recipes := s.recipes.filter (fun r => r.id != recipeId) })
  else
    (false, s)

/-- Embedding of getFoodItemById (database.ts lines 190-197); the
catch-block returns null. -/
def getFoodItemById (ok : Bool) (s : DBState) (foodId : Int) : Option FoodItem :=
  if ok then s.food_items.find? (fun fi => fi.id == foodId) else none

inductive DbError where
  | invalidInput
  | notFound
  | storageFailure
deriving Repr, DecidableEq

/-- Modelled from the spec: `addFoodItem` is imported by AddFoodScreen.tsx
from ../database/database but its definition is not present anywhere under
src; spec section 4.2 gives its contract: signals an InvalidInput error if
name is empty or calories < 0, otherwise inserts the catalog row and
returns the new id. -/
def addFoodItem (s : DBState) (name : String) (calories : Int)
    (protein carbs fat fiber : Rat) (region category servingSize : String) :
    Except DbError (Int × DBState) :=
  if name = "" ∨ calories < 0 then
    Except.error DbError.invalidInput
  else
    Except.ok (s.nextFoodId,
      { s with
          food_items := s.food_items ++
            [⟨s.nextFoodId, name, calories, protein, carbs, fat, fiber,
              servingSize, region, category⟩],
          nextFoodId := s.nextFoodId + 1 })

end Database

namespace CreateRecipe

/-- In-memory ingredient entry of the recipe screens (CreateRecipeScreen.tsx
lines 36-46): addIngredient copies the selected food item's id and macro
values into this record together with the entered quantity. -/
structure Ingredient where
  food_id : Int
  name : String
  quantity : Rat
  calories : Int
  protein : Rat
  carbs : Rat
  fat : Rat
  fiber : Rat
deriving Repr, DecidableEq, Inhabited

/-- Embedding of calculateTotalCalories (CreateRecipeScreen.tsx lines
160-162): ingredients.reduce((sum, item) => sum + item.calories *
item.quantity, 0). -/
def calculateTotalCalories (ingredients : List Ingredient) : Rat :=
  ingredients.foldl (fun sum item => sum + (item.calories : Rat) * item.quantity) 0

/-- One INSERT INTO recipe_ingredients statement of the saveRecipe /
updateRecipe transactions: appends a row with the given recipe id and the
ingredient's food_id and quantity under the next AUTOINCREMENT id. -/
def insertIngredientRow (st : DBState) (recipeId : Int) (ing : Ingredient) : DBState :=
  { st with
      recipe_ingredients := st.recipe_ingredients ++
        [⟨st.nextIngredientId, recipeId, ing.food_id, ing.quantity⟩],
      nextIngredientId := st.nextIngredientId + 1 }

/-- The ingredients.forEach loop of the saveRecipe / updateRecipe
transactions: one numbered INSERT statement per ingredient; a statement
whose error callback fires returns false, so the failed INSERT is skipped
and the transaction continues with the next one. -/
def runIngredientInserts (sched : Nat → Bool) (recipeId : Int) :
    Nat → List Ingredient → DBState → DBState
  | _, [], st => st
  | k, ing :: rest, st =>
      runIngredientInserts sched recipeId (k + 1) rest
        (if sched k then st else insertIngredientRow st recipeId ing)

/-- Embedding of the db.transaction body of saveRecipe
(CreateRecipeScreen.tsx lines 186-214).  Statement 0 is the INSERT INTO
recipes; statements 1..n are the INSERT INTO recipe_ingredients issued from
its success callback.  Every error callback returns false, so under the
WebSQL semantics a failed statement is ignored and the transaction commits
whatever did succeed; a failed recipe INSERT just means its success
callback (and hence every ingredient INSERT) never runs. -/
def saveRecipeTx (s : DBState) (name description instructions : String)
    (totalCalories : Rat) (servings : Int) (ingredients : List Ingredient)
    (sched : Nat → Bool) : DBState :=
  if sched 0 then s
  else
    let rid := s.nextRecipeId
    let s1 := { s with
      recipes := s.recipes ++
        [⟨rid, name, description, instructions, totalCalories, servings⟩],
      nextRecipeId := rid + 1 }
    runIngredientInserts sched rid 1 ingredients s1

/-- Embedding of saveRecipe (CreateRecipeScreen.tsx lines 165-215):
validation aborts with an alert and no database work (none): the
source tests !name.trim() — true exactly when every character of name is
whitespace —, ingredients.length === 0, and a non-positive servings count;
otherwise total calories are computed from the in-memory ingredient list
and the transaction runs. -/
def saveRecipe (s : DBState) (name description instructions : String)
    (servings : Int) (ingredients : List Ingredient) (sched : Nat → Bool) :
    Option DBState :=
  if name.toList.all Char.isWhitespace then none
  else if ingredients.isEmpty then none
  else if servings ≤ 0 then none
  else some (saveRecipeTx s name description instructions
    (calculateTotalCalories ingredients) servings ingredients sched)

end CreateRecipe

namespace EditRecipe

open CreateRecipe

/-- Embedding of calculateTotalCalories (EditRecipeScreen.tsx lines
233-235); same reduction as on the create screen. -/
def calculateTotalCalories (ingredients : List Ingredient) : Rat :=
  ingredients.foldl (fun sum item => sum + (item.calories : Rat) * item.quantity) 0

/-- Embedding of the db.transaction body of updateRecipe
(EditRecipeScreen.tsx lines 259-296).  Statement 0: UPDATE recipes SET ...
WHERE id = recipeId.  Statement 1 (from its success callback): DELETE FROM
recipe_ingredients WHERE recipe_id = recipeId.  Statements 2..: one INSERT
per new ingredient from the delete's success callback.  All error
callbacks return false (ignore and continue); a failed UPDATE or DELETE
means the callbacks nested under it never run. -/
def updateRecipeTx (s : DBState) (recipeId : Int)
    (name description instructions : String) (totalCalories : Rat)
    (servings : Int) (ingredients : List Ingredient) (sched : Nat → Bool) :
    DBState :=
  if sched 0 then s
  else
    let s1 := { s with
      recipes := s.recipes.map (fun r =>
        if r.id == recipeId then
          { r with name := name, description := description,
                   instructions := instructions,
                   total_calories := totalCalories, servings := servings }
        else r) }
    if sched 1 then s1
    else
      let s2 := { s1 with
        recipe_ingredients :=
          s1.recipe_ingredients.filter (fun ri => ri.recipe_id != recipeId) }
      runIngredientInserts sched recipeId 2 ingredients s2

/-- Embedding of updateRecipe (EditRecipeScreen.tsx lines 238-297):
validation identical to saveRecipe, then the transaction. -/
def updateRecipe (s : DBState) (recipeId : Int)
    (name description instructions : String) (servings : Int)
    (ingredients : List Ingredient) (sched : Nat → Bool) : Option DBState :=
  if name.toList.all Char.isWhitespace then none
  else if ingredients.isEmpty then none
  else if servings ≤ 0 then none
  else some (updateRecipeTx s recipeId name description instructions
    (calculateTotalCalories ingredients) servings ingredients sched)

end EditRecipe

namespace RecipeDetail

/-- Embedding of calculatePerServing (RecipeDetailScreen.tsx lines
147-150): Math.round(total / servings), or 0 when servings is not
positive.  Math.round on a finite value is round-half-up, which is
Mathlib's round on Rat. -/
def calculatePerServing (servings : Int) (total : Rat) : Rat :=
  if servings ≤ 0 then 0 else (round (total / (servings : Rat)) : Int)

/-- Columns of the food_logs table actually created by initDatabase
(database.ts lines 48-58). -/
def foodLogsColumns : List String :=
  ["id", "user_id", "food_id", "quantity", "meal_type", "date", "timestamp"]

/-- Column list named by the INSERT INTO food_logs statement of
logRecipeAsMeal (RecipeDetailScreen.tsx lines 172-190). -/
def logInsertColumns : List String :=
  ["user_id", "food_id", "name", "calories", "protein", "carbs", "fat",
   "fiber", "quantity", "meal_type", "serving_size", "timestamp", "date"]

/-- Whether every column named by the logRecipeAsMeal INSERT exists in the
food_logs table; SQLite rejects an INSERT naming an unknown column. -/
def logInsertColumnsOk : Bool :=
  logInsertColumns.all (fun c => foodLogsColumns.contains c)

/-- Embedding of logRecipeAsMeal (RecipeDetailScreen.tsx lines 165-200).
The single INSERT INTO food_logs names the columns of logInsertColumns; if
they all exist in the table the statement appends one row with food_id =
-1 and quantity 1 under the next AUTOINCREMENT id, otherwise the statement
errors, its error callback returns false (error swallowed with a
console.error), and the transaction commits with the table unchanged.
The macro snapshot columns of the row (name, calories, protein, carbs,
fat, fiber, serving_size) do not exist in the schema, so the row shape
below carries only the schema's columns. -/
def logRecipeAsMeal (s : DBState) (date timestamp : String) : DBState :=
  if logInsertColumnsOk then
    { s with
        food_logs := s.food_logs ++
          [⟨s.nextFoodLogId, 1, -1, 1, "Meal", date, timestamp⟩],
        nextFoodLogId := s.nextFoodLogId + 1 }
  else
    s

end RecipeDetail

namespace Home

/-- The daily summary record computed by loadFoodLogs (HomeScreen.tsx
lines 46-55, 70-91). -/
structure DailySummary where
  totalCalories : Rat
  totalProtein : Rat
  totalCarbs : Rat
  totalFat : Rat
  totalFiber : Rat
deriving Repr, DecidableEq, Inhabited

/-- The zero summary the accumulators start from. -/
def zeroSummary : DailySummary := ⟨0, 0, 0, 0, 0⟩

/-- Embedding of the aggregation loop of loadFoodLogs (HomeScreen.tsx
lines 70-91) — the spec's summarizeDay: starting from zeros, for each
joined log row add macro * quantity into each accumulator. -/
def summarizeDay (logs : List Database.JoinedLog) : DailySummary :=
  logs.foldl (fun t log =>
    ⟨t.totalCalories + (log.calories : Rat) * log.quantity,
     t.totalProtein + log.protein * log.quantity,
     t.totalCarbs + log.carbs * log.quantity,
     t.totalFat + log.fat * log.quantity,
     t.totalFiber + log.fiber * log.quantity⟩) zeroSummary

end Home

section Helpers

/-- Folding `acc + f x` over a list equals the starting value plus the sum
of the mapped list (shape of the reduce calls in the screens). -/
lemma foldl_add_map {α : Type} (f : α → Rat) (l : List α) : ∀ a : Rat,
    l.foldl (fun acc x => acc + f x) a = a + (l.map f).sum := by
  induction l with
  | nil => intro a; simp
  | cons x t ih => intro a; simp [ih]; ring

/-- calculateTotalCalories of the create screen as a mapped sum. -/
lemma calculateTotalCalories_eq (l : List CreateRecipe.Ingredient) :
    CreateRecipe.calculateTotalCalories l =
      (l.map (fun i => (i.calories : Rat) * i.quantity)).sum := by
  simpa using foldl_add_map (fun i : CreateRecipe.Ingredient =>
    (i.calories : Rat) * i.quantity) l 0

/-- calculateTotalCalories of the edit screen as a mapped sum. -/
lemma editCalculateTotalCalories_eq (l : List CreateRecipe.Ingredient) :
    EditRecipe.calculateTotalCalories l =
      (l.map (fun i => (i.calories : Rat) * i.quantity)).sum := by
  simpa using foldl_add_map (fun i : CreateRecipe.Ingredient =>
    (i.calories : Rat) * i.quantity) l 0

end Helpers

namespace CreateRecipe

/-- The recipe_ingredients rows produced by a fully successful ingredient
insert loop: consecutive AUTOINCREMENT ids from startId, all owned by
recipeId, carrying each ingredient's food_id and quantity. -/
def ingredientRows (startId recipeId : Int) :
    List Ingredient → List RecipeIngredientRow
  | [] => []
  | i :: rest =>
      ⟨startId, recipeId, i.food_id, i.quantity⟩ ::
        ingredientRows (startId + 1) recipeId rest

/-- When no statement of the schedule fails, the ingredient insert loop
appends exactly one row per ingredient, in order. -/
lemma runIngredientInserts_noFail (sched : Nat → Bool)
    (hs : ∀ k, sched k = false) (rid : Int) :
    ∀ (l : List Ingredient) (k : Nat) (st : DBState),
    runIngredientInserts sched rid k l st =
      { st with
          recipe_ingredients :=
            st.recipe_ingredients ++ ingredientRows st.nextIngredientId rid l,
          nextIngredientId := st.nextIngredientId + l.length } := by
  intro l
  induction l with
  | nil => intro k st; simp [runIngredientInserts, ingredientRows]
  | cons i rest ih =>
      intro k st
      rw [runIngredientInserts, hs k]
      simp only [if_false, ih (k + 1), insertIngredientRow, ingredientRows]
      refine congrArg₂ (fun a b => DBState.mk st.tablesExist st.food_items
        st.recipes a st.food_logs st.water_logs st.nextFoodId st.nextRecipeId b
        st.nextFoodLogId st.nextWaterLogId) ?_ ?_
      · simp [List.append_assoc]
      · simp [List.length_cons]; ring

end CreateRecipe

/-- Concrete database state for exercising the recipe save transaction:
the seeded catalog, empty recipe tables. -/
def c1State : DBState :=
  { tablesExist := true, food_items := Database.initialFoodData, nextFoodId := 11 }

/-- Two in-memory ingredients (Dal and Rice from the seeded catalog). -/
def c1Ingredients : List CreateRecipe.Ingredient :=
  [⟨3, "Dal (Toor)", 2, 116, 7, 20, 2/5, 2⟩,
   ⟨1, "Rice (Cooked)", 1, 130, 27/10, 28, 3/10, 4/10⟩]

/-- The post-state of saveRecipe when SQL statement 2 — the INSERT of the
second ingredient — hits a storage error whose callback returns false. -/
def c1Result : DBState :=
  (CreateRecipe.saveRecipe c1State "Dal Rice" "" "" 2 c1Ingredients
    (fun k => k == 2)).getD {}

/-- C1: the claim that createRecipe is atomic fails on the code.  All
statement error callbacks of saveRecipe return false, which under the
WebSQL semantics means the error is swallowed and the transaction commits
whatever succeeded.  With a two-ingredient recipe whose second ingredient
INSERT errors, the committed post-state holds the recipe row and only one
of the two ingredient rows: a reachable post-state with the recipe row
present and an ingredient row missing. -/
theorem c1_create_recipe_partial_insert_reachable :
    (CreateRecipe.saveRecipe c1State "Dal Rice" "" "" 2 c1Ingredients
      (fun k => k == 2)).isSome = true ∧
    c1Result.recipes.length = 1 ∧
    (c1Result.recipe_ingredients.filter (fun ri => ri.recipe_id == 1)).length = 1 ∧
    c1Ingredients.length = 2 := by
  decide

/-- C3: logRecipeAsMeal cannot insert its row.  Its INSERT INTO food_logs
names the snapshot columns name, calories, protein, carbs, fat, fiber and
serving_size, none of which exist in the food_logs table created by
initDatabase; the statement errors, the error callback returns false, and
the transaction commits with food_logs unchanged — zero rows are inserted
instead of the claimed one. -/
theorem c3_log_recipe_as_meal_inserts_no_row :
    RecipeDetail.logInsertColumnsOk = false ∧
    ∀ (s : DBState) (date timestamp : String),
      RecipeDetail.logRecipeAsMeal s date timestamp = s := by
  refine ⟨by decide, ?_⟩
  intro s date ts
  simp [RecipeDetail.logRecipeAsMeal,
    show RecipeDetail.logInsertColumnsOk = false by decide]

/-- C7 counterexample: with the storage layer failing, initDatabase still
resolves as a plain success — the catch-block only logs the error — so the
failure is not surfaced to the caller as an error. -/
theorem c7_counterexample_init_failure_not_surfaced :
    (Database.initDatabase false ({} : DBState)).1 = Except.ok () ∧
    ¬ ∃ e, (Database.initDatabase false ({} : DBState)).1 = Except.error e := by
  refine ⟨rfl, ?_⟩
  rintro ⟨e, h⟩
  simp [Database.initDatabase] at h

/-- C7 amended: a storage failure during initDatabase is caught and only
logged — the call resolves normally with the state untouched, so the
failure is silently swallowed rather than surfaced; on success the call is
idempotent (a second run changes nothing), creates tables only if absent,
and seeds the catalog exactly when it is empty. -/
theorem c7_init_database_swallows_failure_and_is_idempotent (s : DBState) :
    Database.initDatabase false s = (Except.ok (), s) ∧
    (Database.initDatabase true ((Database.initDatabase true s).2)).2 =
      (Database.initDatabase true s).2 ∧
    (Database.initDatabase true ((Database.initDatabase true s).2)).1 =
      Except.ok () ∧
    (Database.initDatabase true s).2.tablesExist = true ∧
    (s.food_items.isEmpty = false →
      (Database.initDatabase true s).2.food_items = s.food_items) ∧
    (s.food_items.isEmpty = true →
      (Database.initDatabase true s).2.food_items = Database.initialFoodData) := by
  have hseed : Database.initialFoodData.isEmpty = false := by decide
  unfold Database.initDatabase
  cases hT : s.tablesExist <;> cases hE : s.food_items.isEmpty <;>
    simp [hT, hE, hseed]

/-- C7 amended, evaluated: a concrete failing startup resolves normally,
and a second successful run on the seeded state changes nothing. -/
theorem c7_witness :
    Database.initDatabase false ({} : DBState) = (Except.ok (), ({} : DBState)) ∧
    (Database.initDatabase true c1State).2.food_items = c1State.food_items := by
  exact ⟨(c7_init_database_swallows_failure_and_is_idempotent {}).1,
    (c7_init_database_swallows_failure_and_is_idempotent c1State).2.2.2.2.1 rfl⟩

/-- The referenced FoodItem's calories as currently stored in the catalog:
the calories column returned by getFoodItemById, 0 when the id resolves to
no row (the spec-side reading of the sum in claim C2). -/
def catalogCaloriesAt (s : DBState) (foodId : Int) : Rat :=
  match Database.getFoodItemById true s foodId with
  | some fi => (fi.calories : Rat)
  | none => 0

/-- Every row produced by ingredientRows is owned by the given recipe. -/
lemma ingredientRows_recipe_id (rid : Int) :
    ∀ (l : List CreateRecipe.Ingredient) (startId : Int),
    ∀ r ∈ CreateRecipe.ingredientRows startId rid l, r.recipe_id = rid := by
  intro l
  induction l with
  | nil => intro startId r hr; simp [CreateRecipe.ingredientRows] at hr
  | cons i rest ih =>
      intro startId r hr
      simp only [CreateRecipe.ingredientRows, List.mem_cons] at hr
      rcases hr with h | h
      · simp [h]
      · exact ih (startId + 1) r h

/-- Projecting the fresh rows back to (food_id, quantity) pairs recovers
the ingredient list. -/
lemma ingredientRows_map_pairs (rid : Int) :
    ∀ (l : List CreateRecipe.Ingredient) (startId : Int),
    (CreateRecipe.ingredientRows startId rid l).map
        (fun ri => (ri.food_id, ri.quantity)) =
      l.map (fun i => (i.food_id, i.quantity)) := by
  intro l
  induction l with
  | nil => intro startId; simp [CreateRecipe.ingredientRows]
  | cons i rest ih => intro startId; simp [CreateRecipe.ingredientRows, ih]

/-- The fresh rows all pass a filter on their owning recipe id. -/
lemma ingredientRows_filter_eq (rid : Int) (l : List CreateRecipe.Ingredient)
    (startId : Int) :
    (CreateRecipe.ingredientRows startId rid l).filter
        (fun ri => ri.recipe_id == rid) =
      CreateRecipe.ingredientRows startId rid l := by
  apply List.filter_eq_self.mpr
  intro r hr
  simp [ingredientRows_recipe_id rid l startId r hr]

/-- C2: immediately after a fully successful createRecipe (and after
updateRecipe), the stored total_calories of the saved recipe equals the
sum over the supplied ingredients of quantity times the referenced
catalog item's calories as of save time (the snapshot the screens copied
into each ingredient), and getRecipeById depends only on the recipes
table, so the stored value is returned on later reads without being
recomputed from the food catalog. -/
theorem c2_total_calories_snapshot (s : DBState)
    (name description instructions : String) (servings : Int)
    (ingredients : List CreateRecipe.Ingredient) (sched : Nat → Bool)
    (recipeId : Int)
    (hname : name.toList.all Char.isWhitespace = false)
    (hings : ingredients.isEmpty = false)
    (hsrv : 0 < servings)
    (hnofail : ∀ k, sched k = false)
    (hsnap : ∀ i ∈ ingredients, catalogCaloriesAt s i.food_id = (i.calories : Rat)) :
    (∃ s' newRow,
      CreateRecipe.saveRecipe s name description instructions servings
          ingredients sched = some s' ∧
      s'.recipes = s.recipes ++ [newRow] ∧
      newRow.id = s.nextRecipeId ∧
      newRow.total_calories =
        (ingredients.map (fun i => i.quantity * catalogCaloriesAt s i.food_id)).sum) ∧
    (∀ s'', EditRecipe.updateRecipe s recipeId name description instructions
        servings ingredients sched = some s'' →
      ∀ r ∈ s''.recipes, r.id = recipeId →
        r.total_calories =
          (ingredients.map (fun i => i.quantity * catalogCaloriesAt s i.food_id)).sum) ∧
    (∀ sA sB : DBState, sA.recipes = sB.recipes →
      ∀ q, Database.getRecipeById true sA q = Database.getRecipeById true sB q) := by
  have hnamep : ¬ (name.toList.all Char.isWhitespace) = true := by
    rw [hname]; exact Bool.false_ne_true
  have hingsp : ¬ ingredients.isEmpty = true := by
    rw [hings]; exact Bool.false_ne_true
  have htot : CreateRecipe.calculateTotalCalories ingredients =
      (ingredients.map (fun i => i.quantity * catalogCaloriesAt s i.food_id)).sum := by
    rw [calculateTotalCalories_eq]
    apply congrArg List.sum
    apply List.map_congr_left
    intro i hi
    rw [hsnap i hi]
    ring
  have htot2 : EditRecipe.calculateTotalCalories ingredients =
      (ingredients.map (fun i => i.quantity * catalogCaloriesAt s i.food_id)).sum := by
    rw [editCalculateTotalCalories_eq, ← calculateTotalCalories_eq, htot]
  refine ⟨?_, ?_, ?_⟩
  · have hsave : CreateRecipe.saveRecipe s name description instructions servings
        ingredients sched = some (CreateRecipe.saveRecipeTx s name description
          instructions (CreateRecipe.calculateTotalCalories ingredients) servings
          ingredients sched) := by
      rw [CreateRecipe.saveRecipe, if_neg hnamep, if_neg hingsp,
        if_neg (by omega : ¬ servings ≤ 0)]
    refine ⟨_, ⟨s.nextRecipeId, name, description, instructions,
      CreateRecipe.calculateTotalCalories ingredients, servings⟩, hsave, ?_, rfl, htot⟩
    rw [CreateRecipe.saveRecipeTx, hnofail 0]
    simp only [Bool.false_eq_true, if_false]
    rw [CreateRecipe.runIngredientInserts_noFail sched hnofail]
  · intro s'' hupd r hr hid
    rw [EditRecipe.updateRecipe, if_neg hnamep, if_neg hingsp,
      if_neg (by omega : ¬ servings ≤ 0)] at hupd
    obtain rfl := Option.some.inj hupd
    rw [EditRecipe.updateRecipeTx, hnofail 0] at hr
    simp only [Bool.false_eq_true, if_false] at hr
    rw [hnofail 1] at hr
    simp only [Bool.false_eq_true, if_false] at hr
    rw [CreateRecipe.runIngredientInserts_noFail sched hnofail] at hr
    dsimp only at hr
    rcases List.mem_map.mp hr with ⟨r0, hr0, hfr⟩
    by_cases hcase : r0.id = recipeId
    · rw [← hfr]
      simp [hcase, htot2]
    · exfalso
      rw [← hfr] at hid
      simp [show (r0.id == recipeId) = false by simpa using hcase] at hid
      exact hcase hid
  · intro sA sB hAB q
    simp [Database.getRecipeById, hAB]

/-- C2 evaluated: saving the two-ingredient Dal-and-Rice recipe against
the seeded catalog with no storage failure stores as total_calories the
sum of quantity times the catalog calories of each ingredient. -/
theorem c2_witness :
    ∃ s' newRow,
      CreateRecipe.saveRecipe c1State "Dal Rice" "" "" 2 c1Ingredients
          (fun _ => false) = some s' ∧
      s'.recipes = c1State.recipes ++ [newRow] ∧
      newRow.id = c1State.nextRecipeId ∧
      newRow.total_calories =
        (c1Ingredients.map
          (fun i => i.quantity * catalogCaloriesAt c1State i.food_id)).sum := by
  exact (c2_total_calories_snapshot c1State "Dal Rice" "" "" 2 c1Ingredients
    (fun _ => false) 1 (by decide) (by decide) (by decide) (fun _ => rfl)
    (by decide)).1

/-- C5: a fully successful updateRecipe replaces the ingredient set: the
post-state recipe_ingredients are the rows of other recipes plus one
fresh row per supplied ingredient; projecting the rows of the updated
recipe yields exactly the new (food_id, quantity) list, and every row
still owned by the recipe is one of the freshly inserted rows, so no
residual row of the old set remains. -/
theorem c5_update_recipe_replaces_ingredient_set (s : DBState)
    (recipeId : Int) (name description instructions : String) (servings : Int)
    (ingredients : List CreateRecipe.Ingredient) (sched : Nat → Bool)
    (hname : name.toList.all Char.isWhitespace = false)
    (hings : ingredients.isEmpty = false)
    (hsrv : 0 < servings)
    (hnofail : ∀ k, sched k = false) :
    ∃ s', EditRecipe.updateRecipe s recipeId name description instructions
        servings ingredients sched = some s' ∧
      s'.recipe_ingredients =
        s.recipe_ingredients.filter (fun ri => ri.recipe_id != recipeId) ++
          CreateRecipe.ingredientRows s.nextIngredientId recipeId ingredients ∧
      (s'.recipe_ingredients.filter (fun ri => ri.recipe_id == recipeId)).map
          (fun ri => (ri.food_id, ri.quantity)) =
        ingredients.map (fun i => (i.food_id, i.quantity)) ∧
      ∀ ri ∈ s'.recipe_ingredients, ri.recipe_id = recipeId →
        ri ∈ CreateRecipe.ingredientRows s.nextIngredientId recipeId ingredients := by
  have hnamep : ¬ (name.toList.all Char.isWhitespace) = true := by
    rw [hname]; exact Bool.false_ne_true
  have hingsp : ¬ ingredients.isEmpty = true := by
    rw [hings]; exact Bool.false_ne_true
  have hupd : EditRecipe.updateRecipe s recipeId name description instructions
      servings ingredients sched =
    some (EditRecipe.updateRecipeTx s recipeId name description instructions
      (EditRecipe.calculateTotalCalories ingredients) servings ingredients sched) := by
    rw [EditRecipe.updateRecipe, if_neg hnamep, if_neg hingsp,
      if_neg (by omega : ¬ servings ≤ 0)]
  have hri : (EditRecipe.updateRecipeTx s recipeId name description instructions
      (EditRecipe.calculateTotalCalories ingredients) servings ingredients
      sched).recipe_ingredients =
    s.recipe_ingredients.filter (fun ri => ri.recipe_id != recipeId) ++
      CreateRecipe.ingredientRows s.nextIngredientId recipeId ingredients := by
    rw [EditRecipe.updateRecipeTx, hnofail 0]
    simp only [Bool.false_eq_true, if_false]
    rw [hnofail 1]
    simp only [Bool.false_eq_true, if_false]
    rw [CreateRecipe.runIngredientInserts_noFail sched hnofail]
  refine ⟨_, hupd, hri, ?_, ?_⟩
  · rw [hri]
    rw [List.filter_append, List.filter_filter,
      ingredientRows_filter_eq recipeId ingredients s.nextIngredientId]
    have hnil : (s.recipe_ingredients.filter
        (fun ri => (ri.recipe_id == recipeId) && (ri.recipe_id != recipeId))) = [] := by
      apply List.filter_eq_nil_iff.mpr
      intro ri hri2
      simp
    rw [hnil, List.nil_append, ingredientRows_map_pairs]
  · rw [hri]
    intro ri hri2 hrid
    rcases List.mem_append.mp hri2 with h | h
    · exfalso
      have := List.of_mem_filter h
      simp [hrid] at this
    · exact h


def c5State : DBState :=
  { tablesExist := true, food_items := Database.initialFoodData,
    nextFoodId := 11,
    recipes := [⟨1, "Old", "", "", 100, 1⟩],
    recipe_ingredients := [⟨1, 1, 1, 1⟩, ⟨2, 1, 2, 1⟩, ⟨3, 2, 3, 1⟩],
    nextRecipeId := 2, nextIngredientId := 4 }

/-- The new single-ingredient set supplied to updateRecipe. -/
def c5NewIngredients : List CreateRecipe.Ingredient :=
  [⟨4, "Paneer", 2, 265, 18, 18/5, 21, 0⟩]

/-- C5 evaluated: updating recipe 1 of c5State with the one-element Paneer
set leaves exactly that pair behind for recipe 1. -/
theorem c5_witness :
    ∃ s', EditRecipe.updateRecipe c5State 1 "New" "" "" 1 c5NewIngredients
        (fun _ => false) = some s' ∧
      (s'.recipe_ingredients.filter (fun ri => ri.recipe_id == 1)).map
          (fun ri => (ri.food_id, ri.quantity)) =
        c5NewIngredients.map (fun i => (i.food_id, i.quantity)) := by
  obtain ⟨s', h1, h2, h3, h4⟩ := c5_update_recipe_replaces_ingredient_set
    c5State 1 "New" "" "" 1 c5NewIngredients (fun _ => false)
    (by decide) (by decide) (by decide) (fun _ => rfl)
  exact ⟨s', h1, h3⟩

/-- C4: on the storage success path getWeeklyWaterData returns, in input
order, one entry per input date holding the sum of amount_ml of that
user's water logs with exactly that date (the guard on the falsy SUM
result leaves the preallocated 0 in place exactly when the sum is 0); the
output length always equals the input length, and the output is invariant
under permuting the stored water logs, i.e. independent of insertion
order. -/
theorem c4_weekly_water_totals (s : DBState) (userId : Int)
    (dates : List String) (wl2 : List WaterLogRow)
    (hperm : s.water_logs.Perm wl2) :
    Database.getWeeklyWaterData true s userId dates =
      dates.map (fun d => ((s.water_logs.filter
        (fun w => w.user_id == userId && w.date == d)).map
          (fun w => w.amount_ml)).sum) ∧
    (Database.getWeeklyWaterData true s userId dates).length = dates.length ∧
    Database.getWeeklyWaterData true { s with water_logs := wl2 } userId dates =
      Database.getWeeklyWaterData true s userId dates := by
  have hcollapse : ∀ t : Int, (if t = 0 then 0 else t) = t := by
    intro t
    by_cases h : t = 0 <;> simp [h]
  have hmain : ∀ logs : List WaterLogRow,
      Database.getWeeklyWaterData true { s with water_logs := logs } userId dates =
        dates.map (fun d => ((logs.filter
          (fun w => w.user_id == userId && w.date == d)).map
            (fun w => w.amount_ml)).sum) := by
    intro logs
    show dates.map _ = dates.map _
    apply List.map_congr_left
    intro d _
    exact hcollapse _
  have hself : Database.getWeeklyWaterData true s userId dates =
      dates.map (fun d => ((s.water_logs.filter
        (fun w => w.user_id == userId && w.date == d)).map
          (fun w => w.amount_ml)).sum) := by
    have := hmain s.water_logs
    simpa using this
  refine ⟨hself, ?_, ?_⟩
  · rw [hself, List.length_map]
  · rw [hself, hmain wl2]
    apply List.map_congr_left
    intro d _
    exact (((hperm.filter _).map _).sum_eq).symm

/-- Concrete water-log state: three logs of user 1 over two dates. -/
def c4State : DBState :=
  { tablesExist := true,
    water_logs := [⟨1, 1, 500, "t1", "2024-01-01"⟩, ⟨2, 1, 250, "t2", "2024-01-02"⟩,
                   ⟨3, 1, 300, "t3", "2024-01-01"⟩],
    nextWaterLogId := 4 }

/-- C4 evaluated: the three-date query returns the per-date sums in input
order, and reordering the stored logs leaves the output unchanged. -/
theorem c4_witness :
    Database.getWeeklyWaterData true
      { c4State with water_logs := [⟨2, 1, 250, "t2", "2024-01-02"⟩,
        ⟨1, 1, 500, "t1", "2024-01-01"⟩, ⟨3, 1, 300, "t3", "2024-01-01"⟩] } 1
      ["2024-01-01", "2024-01-02", "2024-01-03"] =
      Database.getWeeklyWaterData true c4State 1
        ["2024-01-01", "2024-01-02", "2024-01-03"] ∧
    Database.getWeeklyWaterData true c4State 1
      ["2024-01-01", "2024-01-02", "2024-01-03"] = [800, 250, 0] := by
  have h := c4_weekly_water_totals c4State 1
    ["2024-01-01", "2024-01-02", "2024-01-03"]
    [⟨2, 1, 250, "t2", "2024-01-02"⟩, ⟨1, 1, 500, "t1", "2024-01-01"⟩,
     ⟨3, 1, 300, "t3", "2024-01-01"⟩]
    (List.Perm.swap _ _ _)
  refine ⟨h.2.2, ?_⟩
  rw [h.1]
  decide

/-- C6: on the modelled store API a storage-layer failure in a write
returns the sentinel -1 (insert operations, whose success value is the
AUTOINCREMENT rowid, always at least 1) or false (delete operations, whose
success value is true), so the failure signal is distinct from every
success result and the database is left unchanged; a storage-layer failure
in a read returns the empty sequence (none for the single-row reads, an
all-zero vector for the weekly water totals). -/
theorem c6_write_errors_distinct_read_errors_empty (s : DBState)
    (userId foodId recipeId logId : Int) (q : Rat)
    (mealType date timestamp : String) (amountMl : Int)
    (nm ds instr : String) (tc : Rat) (srv : Int) (dates : List String)
    (hlog : 1 ≤ s.nextFoodLogId) (hwater : 1 ≤ s.nextWaterLogId)
    (hrec : 1 ≤ s.nextRecipeId) (hing : 1 ≤ s.nextIngredientId) :
    ((Database.addFoodLog false s userId foodId q mealType date timestamp).1 = -1 ∧
     1 ≤ (Database.addFoodLog true s userId foodId q mealType date timestamp).1 ∧
     (Database.addFoodLog false s userId foodId q mealType date timestamp).2 = s) ∧
    ((Database.addWaterLog false s userId amountMl date timestamp).1 = -1 ∧
     1 ≤ (Database.addWaterLog true s userId amountMl date timestamp).1 ∧
     (Database.addWaterLog false s userId amountMl date timestamp).2 = s) ∧
    ((Database.addRecipe false s nm ds instr tc srv).1 = -1 ∧
     1 ≤ (Database.addRecipe true s nm ds instr tc srv).1 ∧
     (Database.addRecipe false s nm ds instr tc srv).2 = s) ∧
    ((Database.addRecipeIngredient false s recipeId foodId q).1 = -1 ∧
     1 ≤ (Database.addRecipeIngredient true s recipeId foodId q).1) ∧
    ((Database.deleteFoodLog false s logId).1 = false ∧
     (Database.deleteFoodLog true s logId).1 = true ∧
     (Database.deleteFoodLog false s logId).2 = s) ∧
    ((Database.deleteWaterLog false s logId).1 = false ∧
     (Database.deleteWaterLog true s logId).1 = true) ∧
    ((Database.deleteRecipe false s recipeId).1 = false ∧
     (Database.deleteRecipe true s recipeId).1 = true) ∧
    (Database.getAllFoodItems false s = [] ∧
     Database.getFoodLogsByDate false s userId date = [] ∧
     Database.getWaterLogsByDate false s userId date = [] ∧
     Database.getAllRecipes false s = [] ∧
     Database.getRecipeIngredients false s recipeId = [] ∧
     Database.getRecipeById false s recipeId = none ∧
     Database.getFoodItemById false s foodId = none ∧
     Database.getWeeklyWaterData false s userId dates =
       List.replicate dates.length 0) := by
  exact ⟨⟨rfl, hlog, rfl⟩, ⟨rfl, hwater, rfl⟩, ⟨rfl, hrec, rfl⟩, ⟨rfl, hing⟩,
    ⟨rfl, rfl, rfl⟩, ⟨rfl, rfl⟩, ⟨rfl, rfl⟩,
    rfl, rfl, rfl, rfl, rfl, rfl, rfl, rfl⟩

/-- C6 evaluated: on the empty database a failing addFoodLog returns -1
while a succeeding one returns rowid 1, and a failing catalog read
returns the empty list. -/
theorem c6_witness :
    (Database.addFoodLog false ({} : DBState) 1 1 1 "Breakfast" "2024-01-01"
      "t").1 = -1 ∧
    1 ≤ (Database.addFoodLog true ({} : DBState) 1 1 1 "Breakfast" "2024-01-01"
      "t").1 ∧
    Database.getAllFoodItems false ({} : DBState) = [] := by
  obtain ⟨⟨h1, h2, -⟩, -, -, -, -, -, -, hreads⟩ :=
    c6_write_errors_distinct_read_errors_empty ({} : DBState) 1 1 1 1 1
      "Breakfast" "2024-01-01" "t" 250 "R" "" "" 0 1 ["2024-01-01"]
      (by decide) (by decide) (by decide) (by decide)
  exact ⟨h1, h2, hreads.1⟩

/-- C8: the spec-modelled addFoodItem signals InvalidInput exactly when
the name is empty or calories are negative — in which case no state is
produced, so nothing is persisted — and otherwise returns the next
AUTOINCREMENT id together with the state extended by exactly the new
catalog row. -/
theorem c8_add_food_item_validation (s : DBState) (name : String)
    (calories : Int) (protein carbs fat fiber : Rat)
    (region category servingSize : String) :
    (Database.addFoodItem s name calories protein carbs fat fiber region
        category servingSize = Except.error Database.DbError.invalidInput ↔
      (name = "" ∨ calories < 0)) ∧
    (∀ idOut s', Database.addFoodItem s name calories protein carbs fat fiber
        region category servingSize = Except.ok (idOut, s') →
      idOut = s.nextFoodId ∧
      s'.food_items = s.food_items ++
        [⟨s.nextFoodId, name, calories, protein, carbs, fat, fiber, servingSize,
          region, category⟩] ∧
      name ≠ "" ∧ 0 ≤ calories) := by
  by_cases h : name = "" ∨ calories < 0
  · refine ⟨by simp [Database.addFoodItem, h], ?_⟩
    intro idOut s' hok
    simp [Database.addFoodItem, h] at hok
  · refine ⟨by simp [Database.addFoodItem, h], ?_⟩
    intro idOut s' hok
    simp only [Database.addFoodItem, if_neg h, Except.ok.injEq, Prod.mk.injEq] at hok
    push_neg at h
    obtain ⟨hid, hs⟩ := hok
    refine ⟨hid.symm, ?_, h.1, by omega⟩
    rw [← hs]

/-- C8 evaluated: an empty name and negative calories are each rejected
with InvalidInput, and a valid insert returns id 1 on the empty store. -/
theorem c8_witness :
    Database.addFoodItem ({} : DBState) "" 100 0 0 0 0 "All India" "Staples"
      "100g" = Except.error Database.DbError.invalidInput ∧
    Database.addFoodItem ({} : DBState) "Oats" (-1) 0 0 0 0 "All India"
      "Staples" "100g" = Except.error Database.DbError.invalidInput := by
  refine ⟨(c8_add_food_item_validation ({} : DBState) "" 100 0 0 0 0 "All India"
    "Staples" "100g").1.mpr (Or.inl rfl), ?_⟩
  exact (c8_add_food_item_validation ({} : DBState) "Oats" (-1) 0 0 0 0
    "All India" "Staples" "100g").1.mpr (Or.inr (by decide))

/-- Folding the five-accumulator summary step over a list starting from
any summary adds the per-field mapped sums. -/
lemma summarizeFold_eq (logs : List Database.JoinedLog) :
    ∀ t : Home.DailySummary,
    logs.foldl (fun t log =>
      ⟨t.totalCalories + (log.calories : Rat) * log.quantity,
       t.totalProtein + log.protein * log.quantity,
       t.totalCarbs + log.carbs * log.quantity,
       t.totalFat + log.fat * log.quantity,
       t.totalFiber + log.fiber * log.quantity⟩) t =
    ⟨t.totalCalories + (logs.map (fun g => (g.calories : Rat) * g.quantity)).sum,
     t.totalProtein + (logs.map (fun g => g.protein * g.quantity)).sum,
     t.totalCarbs + (logs.map (fun g => g.carbs * g.quantity)).sum,
     t.totalFat + (logs.map (fun g => g.fat * g.quantity)).sum,
     t.totalFiber + (logs.map (fun g => g.fiber * g.quantity)).sum⟩ := by
  induction logs with
  | nil => intro t; simp
  | cons g rest ih =>
      intro t
      rw [List.foldl_cons, ih]
      simp only [List.map_cons, List.sum_cons, Home.DailySummary.mk.injEq]
      refine ⟨?_, ?_, ?_, ?_, ?_⟩ <;> ring

/-- The summary as per-field mapped sums. -/
lemma summarizeDay_eq (logs : List Database.JoinedLog) :
    Home.summarizeDay logs =
      ⟨(logs.map (fun g => (g.calories : Rat) * g.quantity)).sum,
       (logs.map (fun g => g.protein * g.quantity)).sum,
       (logs.map (fun g => g.carbs * g.quantity)).sum,
       (logs.map (fun g => g.fat * g.quantity)).sum,
       (logs.map (fun g => g.fiber * g.quantity)).sum⟩ := by
  rw [Home.summarizeDay, summarizeFold_eq]
  simp [Home.zeroSummary]

/-- C9: the daily summary is the multiset sum of its input — each total is
the sum over entries of the joined item's macro field times the log
quantity, the empty sequence yields the all-zero summary, and permuting
the input sequence leaves every total unchanged. -/
theorem c9_summarize_day_multiset_sum (logs l2 : List Database.JoinedLog)
    (hperm : logs.Perm l2) :
    Home.summarizeDay logs =
      ⟨(logs.map (fun g => (g.calories : Rat) * g.quantity)).sum,
       (logs.map (fun g => g.protein * g.quantity)).sum,
       (logs.map (fun g => g.carbs * g.quantity)).sum,
       (logs.map (fun g => g.fat * g.quantity)).sum,
       (logs.map (fun g => g.fiber * g.quantity)).sum⟩ ∧
    Home.summarizeDay ([] : List Database.JoinedLog) = Home.zeroSummary ∧
    Home.summarizeDay l2 = Home.summarizeDay logs := by
  refine ⟨summarizeDay_eq logs, rfl, ?_⟩
  rw [summarizeDay_eq logs, summarizeDay_eq l2]
  simp only [Home.DailySummary.mk.injEq]
  refine ⟨?_, ?_, ?_, ?_, ?_⟩ <;> exact ((hperm.map _).sum_eq).symm

/-- A joined breakfast row (Rice) for exercising the summary. -/
def c9LogA : Database.JoinedLog :=
  ⟨1, 2, "Breakfast", "t1", 1, "Rice (Cooked)", 130, 27/10, 28, 3/10, 4/10, "100g"⟩

/-- A joined lunch row (Dal) for exercising the summary. -/
def c9LogB : Database.JoinedLog :=
  ⟨2, 1, "Lunch", "t2", 3, "Dal (Toor)", 116, 7, 20, 2/5, 2, "100g"⟩

/-- C9 evaluated: swapping the two concrete rows leaves the summary
unchanged, and the empty day sums to zero. -/
theorem c9_witness :
    Home.summarizeDay [c9LogB, c9LogA] = Home.summarizeDay [c9LogA, c9LogB] ∧
    Home.summarizeDay ([] : List Database.JoinedLog) = Home.zeroSummary := by
  have h := c9_summarize_day_multiset_sum [c9LogA, c9LogB] [c9LogB, c9LogA]
    (List.Perm.swap c9LogB c9LogA [])
  exact ⟨h.2.2, h.2.1⟩

/-- C10: every row returned by getFoodLogsByDate carries the id of an
existing catalog item, and a food log whose food_id matches no catalog
item — in particular the sentinel food_id = -1 of a recipe-derived log,
since AUTOINCREMENT catalog ids are positive — is dropped by the inner
join: appending such a log to the table changes neither the query result
nor the daily summary computed from it. -/
theorem c10_sentinel_logs_excluded_by_join (s : DBState) (userId : Int)
    (date : String) (fl : FoodLogRow) (hneg : fl.food_id = -1)
    (hpos : ∀ fi ∈ s.food_items, 0 < fi.id) :
    (∀ row ∈ Database.getFoodLogsByDate true s userId date,
      ∃ fi ∈ s.food_items, fi.id = row.food_id) ∧
    Database.getFoodLogsByDate true { s with food_logs := s.food_logs ++ [fl] }
        userId date = Database.getFoodLogsByDate true s userId date ∧
    Home.summarizeDay (Database.getFoodLogsByDate true
        { s with food_logs := s.food_logs ++ [fl] } userId date) =
      Home.summarizeDay (Database.getFoodLogsByDate true s userId date) := by
  have hjoin2 : Database.getFoodLogsByDate true
      { s with food_logs := s.food_logs ++ [fl] } userId date =
      Database.getFoodLogsByDate true s userId date := by
    show (((s.food_logs ++ [fl]).filter
        (fun fl2 => fl2.user_id == userId && fl2.date == date)).flatMap
          (fun fl2 => (s.food_items.filter (fun fi => fi.id == fl2.food_id)).map
            (fun fi => (⟨fl2.id, fl2.quantity, fl2.meal_type, fl2.timestamp, fi.id,
              fi.name, fi.calories, fi.protein, fi.carbs, fi.fat, fi.fiber,
              fi.serving_size⟩ : Database.JoinedLog)))).insertionSort
          (fun a b => b.timestamp ≤ a.timestamp) =
      ((s.food_logs.filter
        (fun fl2 => fl2.user_id == userId && fl2.date == date)).flatMap
          (fun fl2 => (s.food_items.filter (fun fi => fi.id == fl2.food_id)).map
            (fun fi => (⟨fl2.id, fl2.quantity, fl2.meal_type, fl2.timestamp, fi.id,
              fi.name, fi.calories, fi.protein, fi.carbs, fi.fat, fi.fiber,
              fi.serving_size⟩ : Database.JoinedLog)))).insertionSort
          (fun a b => b.timestamp ≤ a.timestamp)
    rw [List.filter_append, List.flatMap_append]
    by_cases hp : (fl.user_id == userId && fl.date == date) = true
    · have hempty : (s.food_items.filter (fun fi => fi.id == fl.food_id)) = [] := by
        apply List.filter_eq_nil_iff.mpr
        intro fi hfi
        have := hpos fi hfi
        simp only [hneg, beq_iff_eq]
        omega
      simp [List.filter_cons, hp, hempty]
    · simp [List.filter_cons, hp]
  refine ⟨?_, hjoin2, congrArg Home.summarizeDay hjoin2⟩
  intro row hrow
  have hrow2 : row ∈ (s.food_logs.filter
      (fun fl2 => fl2.user_id == userId && fl2.date == date)).flatMap
        (fun fl2 => (s.food_items.filter (fun fi => fi.id == fl2.food_id)).map
          (fun fi => (⟨fl2.id, fl2.quantity, fl2.meal_type, fl2.timestamp, fi.id,
            fi.name, fi.calories, fi.protein, fi.carbs, fi.fat, fi.fiber,
            fi.serving_size⟩ : Database.JoinedLog))) := by
    exact (List.perm_insertionSort _ _).mem_iff.mp hrow
  rcases List.mem_flatMap.mp hrow2 with ⟨fl2, _, hmap⟩
  rcases List.mem_map.mp hmap with ⟨fi, hfi, hrowEq⟩
  refine ⟨fi, (List.mem_filter.mp hfi).1, ?_⟩
  rw [← hrowEq]

/-- A sentinel recipe-derived log row as logRecipeAsMeal would shape it. -/
def c10Sentinel : FoodLogRow := ⟨2, 1, -1, 1, "Meal", "2024-01-01", "t2"⟩

/-- Concrete state with one catalog item and one matching log. -/
def c10State : DBState :=
  { tablesExist := true,
    food_items := [⟨1, "Idli", 78, 21/10, 33/2, 1/10, 9/10, "1 piece",
      "South India", "Breakfast"⟩],
    food_logs := [⟨1, 1, 1, 2, "Breakfast", "2024-01-01", "t1"⟩],
    nextFoodId := 2, nextFoodLogId := 3 }

/-- C10 evaluated: appending the sentinel log to c10State leaves the
joined day query unchanged. -/
theorem c10_witness :
    Database.getFoodLogsByDate true
      { c10State with food_logs := c10State.food_logs ++ [c10Sentinel] } 1
      "2024-01-01" =
    Database.getFoodLogsByDate true c10State 1 "2024-01-01" := by
  exact (c10_sentinel_logs_excluded_by_join c10State 1 "2024-01-01" c10Sentinel
    rfl (by decide)).2.1
